import Mathlib

/-!
Verification of the CrashInsight analytics engine.

This file gives a shallow embedding, in Lean 4, of the parts of the
CrashInsight repository (src/backend/app.py and src/netlify/functions/api.py)
that the specification talks about, and proves or refutes the spec claims
against that embedding.

Modelling conventions:
- pandas numeric cells are modelled as values of type Rat; a cell that is
  missing (NaN after coercion with errors="coerce") is modelled as none of
  an Option type, and a cell of an object column holding either a number or
  a string is modelled by the inductive type PCell below;
- Python floats are modelled as rationals; the float literals appearing in
  the source (1.1, 0.2, 100, ...) are taken at their decimal value;
- library calls whose internals are not part of the repository (sklearn
  KMeans, train_test_split, the mlxtend miners) are passed in as function
  parameters; calls that take a random_state seed are modelled as functions
  of an explicit seed argument, and an ambient entropy value stands for the
  randomness an unseeded call would consume.
-/

namespace CrashInsight

/-! ## Generic string helpers: models of the Python membership test on strings, of str.endswith, and of the space-join of a string list -/

/-- startsWithL n h is true iff the list n starts the list h, comparing
characters one by one. -/
def startsWithL : List Char → List Char → Bool
  | [], _ => true
  | _ :: _, [] => false
  | a :: as, b :: bs => a == b && startsWithL as bs

/-- Model of the Python substring test needle in hay on character lists:
true iff the needle occurs contiguously somewhere in the hay. -/
def hasSubstr : List Char → List Char → Bool
  | n, [] => startsWithL n []
  | n, h :: hs => startsWithL n (h :: hs) || hasSubstr n hs

/-- Model of the Python expression needle in hay for strings. -/
def substrB (needle hay : String) : Bool :=
  hasSubstr needle.data hay.data

/-- Model of the Python str.endswith. -/
def pyEndsWith (s pat : String) : Bool :=
  startsWithL pat.data.reverse s.data.reverse

/-- Model of the Python expression chr(32).join(l), i.e. joining a list of
strings with single spaces. -/
def joinSpace : List String → String
  | [] => ""
  | [s] => s
  | s :: rest => s ++ " " ++ joinSpace rest

/-! ## C1 — severity label (app.py lines 112-121, _categorize_severity)

The source reads three injury counters of a row and returns a label:

    if row[injuries_fatal] > 0: return Fatal
    elif row[injuries_incapacitating] > 0: return Serious Injury
    elif row[injuries_non_incapacitating] > 0: return Minor Injury
    else: return No Injury
-/

/-- Embedding of TrafficAccidentAnalyzer._categorize_severity over numeric
injury counters. -/
def categorize_severity (injuries_fatal injuries_incapacitating
    injuries_non_incapacitating : ℚ) : String :=
  if injuries_fatal > 0 then "Fatal"
  else if injuries_incapacitating > 0 then "Serious Injury"
  else if injuries_non_incapacitating > 0 then "Minor Injury"
  else "No Injury"

/-! ## C5 — basic stats (app.py lines 123-134, get_basic_stats)

The backend computes, over the raw dataframe column injuries_total (which can
contain NaN cells where the csv field was empty or non-numeric):

    total_accidents        = len(df)
    injury_accidents       = the count of rows with injuries_total > 0
    property_damage_only   = the count of rows with injuries_total == 0

A NaN cell satisfies neither NaN > 0 nor NaN == 0, which the model reflects
by mapping none to false in both count predicates.
-/

/-- Embedding of len(self.df) restricted to the injuries_total column. -/
def total_accidents (injuries_total : List (Option ℚ)) : Nat :=
  injuries_total.length

/-- Embedding of the injury_accidents count: rows with injuries_total > 0. -/
def injury_accidents (injuries_total : List (Option ℚ)) : Nat :=
  injuries_total.countP fun c =>
    match c with
    | some v => decide (v > 0)
    | none => false

/-- Embedding of the property_damage_only count: rows with injuries_total == 0. -/
def property_damage_only (injuries_total : List (Option ℚ)) : Nat :=
  injuries_total.countP fun c =>
    match c with
    | some v => decide (v = 0)
    | none => false

/-! ## C6 — feature columns of the severity model (app.py lines 401-413)

The processed dataframe holds the 24 csv columns, then crash_datetime and
severity (added at lines 83-100), then one <c>_encoded column per categorical
column in the order of the categorical_cols list (line 104-110).  The model
code filters this column list. -/

/-- The 24 csv column names (app.py lines 65-73). -/
def column_names : List String :=
  ["crash_time", "traffic_control_device", "weather_condition",
   "lighting_condition", "first_crash_type", "trafficway_type",
   "alignment", "roadway_surface_cond", "road_defect", "crash_type",
   "intersection_related_i", "damage", "prim_contributory_cause",
   "num_units", "most_severe_injury", "injuries_total", "injuries_fatal",
   "injuries_incapacitating", "injuries_non_incapacitating",
   "injuries_reported_not_evident",
   "injuries_no_indication", "crash_hour", "crash_day_of_week", "crash_month"]

/-- The categorical columns that receive a label encoding (app.py 104-106). -/
def categorical_cols : List String :=
  ["traffic_control_device", "weather_condition", "lighting_condition",
   "first_crash_type", "trafficway_type", "alignment", "roadway_surface_cond",
   "road_defect", "prim_contributory_cause", "most_severe_injury"]

/-- Columns of processed_df after load_and_process_data: the csv columns,
crash_datetime (line 83/86), severity (line 100), then the encoded columns
appended in loop order (line 108-110). -/
def processed_columns : List String :=
  column_names ++ ["crash_datetime", "severity"]
    ++ categorical_cols.map (fun c => c ++ "_encoded")

/-- The exclusion list of train_severity_model (app.py lines 407-409). -/
def injury_related : List String :=
  ["most_severe_injury_encoded", "injuries_total_encoded",
   "injuries_fatal_encoded", "injuries_incapacitating_encoded",
   "injuries_non_incapacitating_encoded",
   "injuries_reported_not_evident_encoded", "injuries_no_indication_encoded"]

/-- Embedding of the feature-column construction of train_severity_model
(app.py lines 404-413): keep the columns ending in _encoded, drop the
injury-related ones, then extend with the temporal and count columns. -/
def train_feature_cols : List String :=
  ((processed_columns.filter fun c => pyEndsWith c "_encoded").filter
      fun c => !(injury_related.contains c))
    ++ ["crash_hour", "crash_day_of_week", "crash_month", "num_units"]

/-! ## C9 — hourly time analysis (app.py lines 88-97 and 136-150)

load_and_process_data coerces crash_hour with pd.to_numeric(errors="coerce")
(line 94) and then runs fillna("Unknown") on the whole frame (line 97), so a
missing hour becomes the string "Unknown" inside an otherwise numeric column.
get_time_analysis then runs value_counts().sort_index() (line 138) and builds
the list [{hour: int(hour), accidents: int(count)} for ... if not pd.isna(hour)]
(lines 147-150).  pandas raises a TypeError when sorting an index that mixes
strings and numbers, and int("Unknown") raises a ValueError; pd.isna is false
on the string "Unknown", so the guard never fires.
-/

/-- A cell of a processed object column: either a number or a string. -/
inductive PCell where
  | num : ℚ → PCell
  | str : String → PCell
deriving DecidableEq

/-- Embedding of pd.to_numeric(errors="coerce") followed by
fillna("Unknown") on one crash_hour cell (app.py lines 93-97): a cell that
parsed as a number stays numeric, a missing or unparseable cell becomes the
string "Unknown". -/
def coerce_fill (raw : Option ℚ) : PCell :=
  match raw with
  | some v => PCell.num v
  | none => PCell.str "Unknown"

/-- Embedding of Series.value_counts: each distinct cell value paired with
its number of occurrences (the pre-sort order is irrelevant downstream). -/
def value_counts (cells : List PCell) : List (PCell × Nat) :=
  cells.dedup.map fun v => (v, cells.count v)

/-- True on numeric cells. -/
def is_num : PCell → Bool
  | PCell.num _ => true
  | PCell.str _ => false

/-- Lexicographic order on character lists, modelling Python string
comparison. -/
def charListLt : List Char → List Char → Bool
  | [], [] => false
  | [], _ :: _ => true
  | _ :: _, [] => false
  | a :: as, b :: bs => a < b || (a == b && charListLt as bs)

/-- Comparison used by sort_index on a homogeneous index; on a mixed pair it
is never consulted because sort_index raises first. -/
def cell_key_le (a b : PCell) : Bool :=
  match a, b with
  | PCell.num x, PCell.num y => decide (x ≤ y)
  | PCell.str x, PCell.str y => !(charListLt y.data x.data)
  | _, _ => false

/-- Embedding of .sort_index() (app.py line 138): raises a TypeError when the
index mixes numeric and string keys, otherwise sorts by key. -/
def sort_index (pairs : List (PCell × Nat)) :
    Except String (List (PCell × Nat)) :=
  if (pairs.any fun p => is_num p.1) && (pairs.any fun p => !(is_num p.1)) then
    Except.error "TypeError: unorderable index of mixed str and numeric keys"
  else
    Except.ok (pairs.insertionSort fun p q => cell_key_le p.1 q.1 = true)

/-- Embedding of pd.isna on a processed cell: after fillna no NaN remains, a
number is not NA and the string "Unknown" is not NA either. -/
def pd_isna (_ : PCell) : Bool := false

/-- Integer truncation toward zero, the behaviour of the Python int()
conversion on a float. -/
def ratTrunc (q : ℚ) : Int := q.num / (q.den : Int)

/-- Embedding of the Python int() call on a cell: converts a number, raises
a ValueError on a string such as "Unknown". -/
def py_int : PCell → Except String Int
  | PCell.num q => Except.ok (ratTrunc q)
  | PCell.str s =>
      Except.error ("ValueError: invalid literal for int() with base 10: " ++ s)

/-- Embedding of the list comprehension of app.py lines 147-150: walk the
sorted (hour, count) pairs, skip entries whose key is NA, convert the key
with int(); the first conversion failure aborts the whole request. -/
def hourly_entries : List (PCell × Nat) → Except String (List (Int × Nat))
  | [] => Except.ok []
  | (h, c) :: rest =>
    if pd_isna h then hourly_entries rest
    else
      match py_int h with
      | Except.error e => Except.error e
      | Except.ok hv =>
        match hourly_entries rest with
        | Except.error e => Except.error e
        | Except.ok tail => Except.ok ((hv, c) :: tail)

/-- Embedding of the hourly-distribution part of get_time_analysis
(app.py lines 136-150), starting from the raw parsed crash_hour column
(none being a missing or unparseable cell). -/
def get_time_analysis_hourly (raw : List (Option ℚ)) :
    Except String (List (Int × Nat)) :=
  match sort_index (value_counts (raw.map coerce_fill)) with
  | Except.error e => Except.error e
  | Except.ok pairs => hourly_entries pairs

/-! ## C7 — clustering summaries (app.py lines 209-311)

perform_clustering loops for i in range(n_clusters) and for each i records
size = len(cluster_data) (the rows whose KMeans label equals i) and
percentage = round(size / total_accidents * 100, 1), where total_accidents
is the working-set row count.  The KMeans label vector is modelled as a list
of natural numbers. -/

/-- Embedding of the per-cluster sizes: for each i in range(n_clusters), the
number of working-set rows with label i (app.py lines 244-245 and 283). -/
def cluster_sizes (labels : List Nat) (n_clusters : Nat) : List Nat :=
  (List.range n_clusters).map fun i => labels.count i

/-- Model of the Python round(x, 1): the nearest multiple of one tenth (the
source rounds a float half to even; every rounding to nearest agrees with
this model up to the half-ulp bound proved below, which is all the claim
uses). -/
def round1 (q : ℚ) : ℚ := ((round (10 * q) : ℤ) : ℚ) / 10

/-- Embedding of the per-cluster percentage values
round(size / total_accidents * 100, 1) (app.py line 284). -/
def cluster_percentages (labels : List Nat) (n_clusters : Nat) : List ℚ :=
  (cluster_sizes labels n_clusters).map fun s : ℕ =>
    round1 ((s : ℚ) / (labels.length : ℚ) * 100)

/-! ## C10 — injury distribution bands (app.py lines 248-252)

For one cluster the source counts
    no_injury : rows with injuries_total == 0
    minor     : rows with injuries_total > 0 and injuries_total <= 2
    serious   : rows with injuries_total > 2
over the cluster rows. -/

/-- The no-injury band predicate, injuries_total == 0. -/
def band_no_injury (v : ℚ) : Prop := v = 0

/-- The minor band predicate, 0 < injuries_total <= 2. -/
def band_minor (v : ℚ) : Prop := 0 < v ∧ v ≤ 2

/-- The serious band predicate, injuries_total > 2. -/
def band_serious (v : ℚ) : Prop := 2 < v

/-- Embedding of the injury_dist dictionary of app.py lines 248-252 over the
injuries_total values of one cluster: (no_injury, minor, serious) counts. -/
def injury_distribution (vals : List ℚ) : Nat × Nat × Nat :=
  (vals.countP fun v => decide (v = 0),
   vals.countP fun v => decide (0 < v) && decide (v ≤ 2),
   vals.countP fun v => decide (2 < v))

/-! ## C2 — fixed seeds and determinism

Every randomized call site of the engine passes the literal seed 42:
DataFrame.sample(n=50000, random_state=42) at app.py line 229,
KMeans(n_clusters, random_state=42, n_init=20, max_iter=500) at line 236,
train_test_split(..., test_size=0.2, random_state=42, stratify=y) at 422,
RandomForestClassifier(n_estimators=100, random_state=42, max_depth=10) at
425-430 and DecisionTreeClassifier(random_state=42, ...) at 437-445.  The
association-rule miner makes no randomized call at all.  A seeded library
primitive is a function of its seed argument; an unseeded call would instead
consume ambient entropy, modelled by resolveSeed. -/

/-- Seed resolution of a randomized library call: an explicit random_state
makes the call ignore the ambient entropy, an absent one consumes it. -/
def resolveSeed (ambient : Nat) : Option Nat → Nat
  | some s => s
  | none => ambient

/-- Embedding of the randomized skeleton of perform_clustering (app.py lines
227-237): optional subsample of 50000 rows with random_state=42, then KMeans
with random_state=42, n_init=20, max_iter=500.  The library primitives are
parameters; each receives the resolved seed of its call site. -/
def perform_clustering_run {Row Out : Type}
    (sampleData : Nat → Nat → List Row → List Row)
    (kmeansFitPredict : Nat → Nat → Nat → Nat → List Row → Out)
    (ambient : Nat) (n_clusters : Nat) (rows : List Row) : Out :=
  let working :=
    if rows.length > 50000 then
      sampleData (resolveSeed ambient (some 42)) 50000 rows
    else rows
  kmeansFitPredict (resolveSeed ambient (some 42)) n_clusters 20 500 working

/-- Embedding of the randomized skeleton of train_severity_model (app.py
lines 422-448): stratified 80/20 split with random_state=42, a random forest
with random_state=42 and a decision tree with random_state=42, each model
evaluated on the held-out part of the split. -/
def train_severity_model_run {Row Split Model Acc : Type}
    (trainTestSplit : Nat → ℚ → List Row → Split)
    (rfFit : Nat → Nat → Nat → Split → Model)
    (dtFit : Nat → Nat → Split → Model)
    (accuracyOf : Model → Split → Acc)
    (ambient : Nat) (rows : List Row) : Acc × Acc :=
  let split := trainTestSplit (resolveSeed ambient (some 42)) (1 / 5) rows
  let rf := rfFit (resolveSeed ambient (some 42)) 100 10 split
  let dt := dtFit (resolveSeed ambient (some 42)) 7 split
  (accuracyOf rf split, accuracyOf dt split)

/-! ## C3 and C8 — association rules (app.py lines 519-622)

generate_association_rules builds a binary table, mines itemsets with
apriori(min_support) and rules with association_rules(min_threshold=0.6),
then filters the rules, sorts the survivors by descending lift and returns
at most 15 of them; when mining yields nothing (or throws) it returns an
empty list with an error note.  The mining library is modelled by its
outcome: either an exception or the pair (number of frequent itemsets,
mined rule list). -/

/-- An association rule as produced by the mining library: antecedent item
list, consequent item list, and the three metrics. -/
structure ARule where
  antecedents : List String
  consequents : List String
  support : ℚ
  confidence : ℚ
  lift : ℚ
deriving DecidableEq

/-- The explicit exclusion list of app.py lines 557-565. -/
def obvious_patterns : List (String × String) :=
  [("weather_condition_CLEAR", "lighting_condition_DAYLIGHT"),
   ("lighting_condition_DAYLIGHT", "weather_condition_CLEAR"),
   ("weather_condition_RAIN", "roadway_surface_cond_WET"),
   ("roadway_surface_cond_WET", "weather_condition_RAIN"),
   ("weather_condition_SNOW", "roadway_surface_cond_SNOW OR SLUSH"),
   ("roadway_surface_cond_SNOW OR SLUSH", "weather_condition_SNOW"),
   ("lighting_condition_DARKNESS", "lighting_condition_LIGHTED")]

/-- One antecedent/consequent pair check of the is_obvious loop (app.py
lines 573-585): a listed pair in either direction, or weather and surface
conditions predicting each other. -/
def is_obvious_pair (ant cons : String) : Bool :=
  obvious_patterns.contains (ant, cons)
    || obvious_patterns.contains (cons, ant)
    || (substrB "weather_condition" ant && substrB "roadway_surface_cond" cons)
    || (substrB "roadway_surface_cond" ant && substrB "weather_condition" cons)

/-- The is_obvious flag of one rule: some antecedent/consequent pair trips
is_obvious_pair (the double loop with breaks of app.py lines 573-585). -/
def is_obvious (r : ARule) : Bool :=
  r.antecedents.any fun a => r.consequents.any fun c => is_obvious_pair a c

/-- Embedding of has_accident_outcome (app.py lines 588-591): one of the
outcome keywords occurs in the space-join of the consequents. -/
def has_accident_outcome (r : ARule) : Bool :=
  ["high_injury", "fatal_accident", "multiple_vehicles",
   "first_crash_type"].any fun k => substrB k (joinSpace r.consequents)

/-- Embedding of predicts_environment (app.py lines 594-597): one of the
environmental keywords occurs in the space-join of the consequents. -/
def predicts_environment (r : ARule) : Bool :=
  ["weather_condition", "lighting_condition",
   "roadway_surface_cond"].any fun k => substrB k (joinSpace r.consequents)

/-- The acceptance test of app.py line 604. -/
def rule_filter (r : ARule) : Bool :=
  !is_obvious r && has_accident_outcome r && !predicts_environment r
    && decide (r.lift > mkRat 11 10)

/-- Descending-lift order used for the final sort (app.py line 614). -/
def liftGe (a b : ARule) : Prop := b.lift ≤ a.lift

instance : DecidableRel liftGe :=
  fun a b => inferInstanceAs (Decidable (b.lift ≤ a.lift))

instance : IsTotal ARule liftGe :=
  ⟨fun a b => le_total b.lift a.lift⟩

instance : IsTrans ARule liftGe :=
  ⟨fun _ _ _ h1 h2 => le_trans h2 h1⟩

/-- Embedding of the filter loop, the descending-lift sort and the top-15
truncation (app.py lines 567-615). -/
def filtered_rules_list (rules : List ARule) : List ARule :=
  (List.insertionSort liftGe (rules.filter rule_filter)).take 15

/-- The result shape of generate_association_rules: the rule list and the
optional error note (present exactly when the reply carries the error
key). -/
structure ARResult where
  rules : List ARule
  error : Option String
deriving DecidableEq

/-- The explanatory note of app.py line 622. -/
def no_rules_note : String := "No significant association rules found"

/-- Embedding of the control flow of generate_association_rules (app.py
lines 545-622): the mining outcome is either an exception (caught at line
619) or the pair of the frequent-itemset count and the mined rule list; only
when both are non-empty is the filtered, sorted, truncated list returned,
and every other path falls through to the note-carrying empty reply. -/
def generate_association_rules
    (mined : Except String (Nat × List ARule)) : ARResult :=
  match mined with
  | Except.error _ => ⟨[], some no_rules_note⟩
  | Except.ok (nItemsets, rules) =>
    if 0 < nItemsets then
      if 0 < rules.length then ⟨filtered_rules_list rules, none⟩
      else ⟨[], some no_rules_note⟩
    else ⟨[], some no_rules_note⟩

/-- Per-rule environmental-consequent freedom, stated item by item: no
consequent item contains any of the three environmental field names. -/
def env_free (r : ARule) : Bool :=
  r.consequents.all fun c =>
    (["weather_condition", "lighting_condition",
      "roadway_surface_cond"].all fun k => !(substrB k c))

/-! ## C4 — dataset lookup and startup (app.py lines 40-60 and 670-688)

The constructor walks an ordered candidate-path list and raises
FileNotFoundError when none exists (lines 44-58).  The module-level code
wraps construction in try/except: on failure it prints the error and binds
analyzer = None (lines 670-676), and the main block then calls app.run
unconditionally (lines 678-688). -/

/-- The ordered candidate paths of app.py lines 45-50; the third entry is
the path joined from the script directory and the fourth is the DATASET_PATH
environment variable with its default. -/
def backend_candidate_paths (scriptDirCsv : String)
    (envDatasetPath : Option String) : List String :=
  ["traffic_accidents.csv", "./traffic_accidents.csv", scriptDirCsv,
   envDatasetPath.getD "traffic_accidents.csv"]

/-- Embedding of the path probe loop (app.py lines 52-55): the first
candidate that exists, if any. -/
def find_dataset (fileExists : String → Bool) (paths : List String) :
    Option String :=
  paths.find? fileExists

/-- Embedding of TrafficAccidentAnalyzer.__init__ with csv_file=None
(app.py lines 44-60): ok with the found path, or the FileNotFoundError of
line 58. -/
def analyzer_init (fileExists : String → Bool) (scriptDirCsv : String)
    (envDatasetPath : Option String) : Except String String :=
  match find_dataset fileExists
      (backend_candidate_paths scriptDirCsv envDatasetPath) with
  | some p => Except.ok p
  | none =>
      Except.error
        "Dataset file not found. Please ensure traffic_accidents.csv is available."

/-- Embedding of the module-level initialization (app.py lines 670-676): the
exception is caught and the analyzer binding becomes None. -/
def module_level_analyzer (fileExists : String → Bool) (scriptDirCsv : String)
    (envDatasetPath : Option String) : Option String :=
  match analyzer_init fileExists scriptDirCsv envDatasetPath with
  | Except.ok a => some a
  | Except.error _ => none

/-- Embedding of the main block (app.py lines 678-688): app.run is executed
unconditionally, whether or not the analyzer was constructed, so the process
comes up serving requests in either case. -/
def server_starts (_analyzer : Option String) : Bool := true

/-! ## Netlify variant of basic stats (api.py lines 105-126)

The serverless variant computes property_damage_only by subtraction from the
total instead of counting zero rows. -/

/-- Embedding of property_damage_only of api.py line 110:
total_accidents - injury_accidents. -/
def property_damage_only_netlify (injuries_total : List (Option ℚ)) : Nat :=
  total_accidents injuries_total - injury_accidents injuries_total

/-- A concrete rule that survives the relevance filter: snowy weather as
antecedent, the high-injury outcome flag as consequent, lift 2. -/
def c3_good_rule : ARule :=
  ⟨["weather_condition_SNOW"], ["high_injury"], mkRat 1 50, mkRat 13 20, 2⟩

/-- A concrete rule that the relevance filter discards: lift 1 is below the
1.1 threshold. -/
def c8_filtered_rule : ARule :=
  ⟨["weather_condition_SNOW"], ["high_injury"], mkRat 1 100, mkRat 7 10, 1⟩

/-! ## Helper lemmas -/

theorem startsWithL_append (n s t : List Char) (h : startsWithL n s = true) :
    startsWithL n (s ++ t) = true := by
  induction n generalizing s with
  | nil => simp [startsWithL]
  | cons a as ih =>
    cases s with
    | nil => simp [startsWithL] at h
    | cons b bs =>
      simp only [startsWithL, Bool.and_eq_true, beq_iff_eq] at h
      simp only [List.cons_append, startsWithL, Bool.and_eq_true, beq_iff_eq]
      exact ⟨h.1, ih bs h.2⟩

theorem hasSubstr_nil_needle (l : List Char) : hasSubstr [] l = true := by
  cases l with
  | nil => rfl
  | cons b bs => simp [hasSubstr, startsWithL]

theorem hasSubstr_append_right (n h t : List Char)
    (hh : hasSubstr n h = true) : hasSubstr n (h ++ t) = true := by
  induction h with
  | nil =>
    cases n with
    | nil => simpa using hasSubstr_nil_needle t
    | cons a as => simp [hasSubstr, startsWithL] at hh
  | cons b bs ih =>
    simp only [hasSubstr, Bool.or_eq_true] at hh
    rcases hh with hh | hh
    · have := startsWithL_append n (b :: bs) t hh
      simp only [List.cons_append, hasSubstr, Bool.or_eq_true]
      left
      simpa using this
    · simp only [List.cons_append, hasSubstr, Bool.or_eq_true]
      right
      exact ih hh

theorem hasSubstr_append_left (n h t : List Char)
    (hh : hasSubstr n h = true) : hasSubstr n (t ++ h) = true := by
  induction t with
  | nil => simpa using hh
  | cons a as ih =>
    simp only [List.cons_append, hasSubstr, Bool.or_eq_true]
    right
    exact ih

theorem substr_mem_joinSpace (k : String) (l : List String) (c : String)
    (hc : c ∈ l) (hk : substrB k c = true) :
    substrB k (joinSpace l) = true := by
  induction l with
  | nil => simp at hc
  | cons s rest ih =>
    cases rest with
    | nil =>
      have : c = s := by simpa using hc
      subst this
      simpa [joinSpace] using hk
    | cons s2 r2 =>
      rcases List.mem_cons.mp hc with hcs | hcr
      · subst hcs
        show hasSubstr k.data (joinSpace (c :: s2 :: r2)).data = true
        have hd : (joinSpace (c :: s2 :: r2)).data
            = c.data ++ (" " ++ joinSpace (s2 :: r2)).data := by
          simp [joinSpace, String.data_append]
        rw [hd]
        exact hasSubstr_append_right _ _ _ hk
      · have hrec : substrB k (joinSpace (s2 :: r2)) = true := ih hcr
        show hasSubstr k.data (joinSpace (s :: s2 :: r2)).data = true
        have hd : (joinSpace (s :: s2 :: r2)).data
            = (s ++ " ").data ++ (joinSpace (s2 :: r2)).data := by
          simp [joinSpace, String.data_append]
        rw [hd]
        exact hasSubstr_append_left _ _ _ hrec

theorem env_free_of_not_predicts (r : ARule)
    (h : predicts_environment r = false) : env_free r = true := by
  unfold env_free
  rw [List.all_eq_true]
  intro c hc
  rw [List.all_eq_true]
  intro k hk
  rw [Bool.not_eq_true']
  by_contra hsub
  rw [Bool.not_eq_false] at hsub
  have hpred : predicts_environment r = true := by
    unfold predicts_environment
    rw [List.any_eq_true]
    exact ⟨k, hk, substr_mem_joinSpace k r.consequents c hc hsub⟩
  rw [h] at hpred
  exact Bool.false_ne_true hpred

theorem mem_filtered_rules_list (rules : List ARule) (r : ARule)
    (hr : r ∈ filtered_rules_list rules) : rule_filter r = true := by
  unfold filtered_rules_list at hr
  have h1 : r ∈ List.insertionSort liftGe (rules.filter rule_filter) :=
    (List.take_sublist 15 _).subset hr
  have h2 : r ∈ rules.filter rule_filter :=
    (List.perm_insertionSort liftGe (rules.filter rule_filter)).mem_iff.mp h1
  exact (List.mem_filter.mp h2).2

theorem sorted_filtered_rules_list (rules : List ARule) :
    List.Sorted liftGe (filtered_rules_list rules) := by
  unfold filtered_rules_list
  exact List.Pairwise.sublist (List.take_sublist 15 _)
    (List.sorted_insertionSort liftGe (rules.filter rule_filter))

theorem length_filtered_rules_list (rules : List ARule) :
    (filtered_rules_list rules).length ≤ 15 := by
  unfold filtered_rules_list
  rw [List.length_take]
  exact min_le_left _ _

theorem sum_map_add_nat (l : List Nat) (f g : Nat → Nat) :
    (l.map fun i => f i + g i).sum = (l.map f).sum + (l.map g).sum := by
  induction l with
  | nil => simp
  | cons a as ih =>
    simp only [List.map_cons, List.sum_cons, ih]
    omega

theorem sum_range_single (a n : Nat) (h : a < n) :
    ((List.range n).map fun i => if a = i then (1 : Nat) else 0).sum = 1 := by
  induction n with
  | zero => omega
  | succ m ih =>
    rw [List.range_succ, List.map_append, List.sum_append]
    by_cases hc : a = m
    · subst hc
      have hz : ((List.range a).map
          fun i => if a = i then (1 : Nat) else 0).sum = 0 := by
        apply List.sum_eq_zero
        intro x hx
        rcases List.mem_map.mp hx with ⟨i, hi, rfl⟩
        have : i < a := List.mem_range.mp hi
        simp [Nat.ne_of_gt this]
      simp [hz]
    · have ha : a < m := by omega
      simp [ih ha, hc]

theorem sum_range_count (labels : List Nat) (n : Nat)
    (h : ∀ l ∈ labels, l < n) :
    ((List.range n).map fun i => labels.count i).sum = labels.length := by
  induction labels with
  | nil => simp
  | cons a as ih =>
    have ha : a < n := h a (List.mem_cons_self a as)
    have has : ∀ l ∈ as, l < n := fun l hl => h l (List.mem_cons_of_mem a hl)
    have hcount : ∀ i : Nat, (a :: as).count i
        = as.count i + if a = i then 1 else 0 := by
      intro i
      rw [List.count_cons]
      simp [beq_iff_eq]
    calc ((List.range n).map fun i => (a :: as).count i).sum
        = ((List.range n).map
            fun i => as.count i + if a = i then 1 else 0).sum := by
          simp only [hcount]
      _ = ((List.range n).map fun i => as.count i).sum
            + ((List.range n).map fun i => if a = i then (1 : Nat) else 0).sum := by
          rw [sum_map_add_nat]
      _ = as.length + 1 := by rw [ih has, sum_range_single a n ha]
      _ = (a :: as).length := by simp

theorem sum_map_div_mul (l : List Nat) (T : ℚ) :
    (List.map (fun s : ℕ => (s : ℚ) / T * 100) l).sum
      = (l.sum : ℚ) / T * 100 := by
  induction l with
  | nil => simp
  | cons a as ih =>
    rw [List.map_cons, List.sum_cons, ih, List.sum_cons, Nat.cast_add]
    ring

theorem sum_map_sub_rat (l : List Nat) (f g : Nat → ℚ) :
    (l.map fun x => f x - g x).sum = (l.map f).sum - (l.map g).sum := by
  induction l with
  | nil => simp
  | cons a as ih =>
    simp only [List.map_cons, List.sum_cons, ih]
    ring

theorem abs_list_sum_le (l : List ℚ) : |l.sum| ≤ (l.map fun x => |x|).sum := by
  induction l with
  | nil => simp
  | cons a as ih =>
    simp only [List.map_cons, List.sum_cons]
    exact le_trans (abs_add a as.sum) (by linarith)

theorem round1_close (q : ℚ) : |round1 q - q| ≤ 1 / 20 := by
  unfold round1
  have h := abs_sub_round (10 * q)
  rw [abs_sub_comm] at h
  have heq : ((round (10 * q) : ℤ) : ℚ) / 10 - q
      = (((round (10 * q) : ℤ) : ℚ) - 10 * q) / 10 := by ring
  rw [heq, abs_div]
  have h10 : |(10 : ℚ)| = 10 := by norm_num
  rw [h10]
  linarith

theorem injury_bands_sum : ∀ vals : List ℚ, (∀ v ∈ vals, 0 ≤ v) →
    (injury_distribution vals).1 + (injury_distribution vals).2.1
      + (injury_distribution vals).2.2 = vals.length := by
  intro vals
  induction vals with
  | nil =>
    intro _
    rfl
  | cons v vs ih =>
    intro h
    have hv : 0 ≤ v := h v (List.mem_cons_self v vs)
    have hrec : List.countP (fun x : ℚ => decide (x = 0)) vs
        + List.countP (fun x : ℚ => decide (0 < x) && decide (x ≤ 2)) vs
        + List.countP (fun x : ℚ => decide (2 < x)) vs = vs.length :=
      ih fun x hx => h x (List.mem_cons_of_mem _ hx)
    unfold injury_distribution
    simp only [List.countP_cons, List.length_cons]
    rcases eq_or_lt_of_le hv with h0 | hpos
    · have e1 : decide (v = 0) = true := by
        rw [decide_eq_true_eq]
        exact h0.symm
      have e2 : (decide (0 < v) && decide (v ≤ 2)) = false := by
        have hx : decide (0 < v) = false := by
          rw [decide_eq_false_iff_not, ← h0]
          exact lt_irrefl 0
        rw [hx, Bool.false_and]
      have e3 : decide (2 < v) = false := by
        rw [decide_eq_false_iff_not, ← h0]
        norm_num
      rw [e1, e2, e3]
      norm_num
      omega
    · rcases le_or_lt v 2 with h2 | h2
      · have e1 : decide (v = 0) = false := by
          rw [decide_eq_false_iff_not]
          exact fun he => lt_irrefl 0 (he ▸ hpos)
        have e2 : (decide (0 < v) && decide (v ≤ 2)) = true := by
          rw [Bool.and_eq_true, decide_eq_true_eq, decide_eq_true_eq]
          exact ⟨hpos, h2⟩
        have e3 : decide (2 < v) = false := by
          rw [decide_eq_false_iff_not]
          exact not_lt.mpr h2
        rw [e1, e2, e3]
        norm_num
        omega
      · have e1 : decide (v = 0) = false := by
          rw [decide_eq_false_iff_not]
          exact fun he => lt_irrefl 0 (he ▸ hpos)
        have e2 : (decide (0 < v) && decide (v ≤ 2)) = false := by
          have hx : decide (v ≤ 2) = false := by
            rw [decide_eq_false_iff_not]
            exact not_le.mpr h2
          rw [hx, Bool.and_false]
        have e3 : decide (2 < v) = true := by
          rw [decide_eq_true_eq]
          exact h2
        rw [e1, e2, e3]
        norm_num
        omega

/-! ## Claim theorems -/

/-- Claim C1: the derived severity label is exactly one of the four values,
computed from the injury counters with the fixed precedence fatal over
incapacitating over non-incapacitating over none; in particular any row with
a positive fatal count is labelled Fatal even when the incapacitating count
is also positive. -/
theorem c1_severity_label (f i n : ℚ) :
    categorize_severity f i n
        ∈ ["Fatal", "Serious Injury", "Minor Injury", "No Injury"]
      ∧ (0 < f → categorize_severity f i n = "Fatal")
      ∧ (¬0 < f → 0 < i → categorize_severity f i n = "Serious Injury")
      ∧ (¬0 < f → ¬0 < i → 0 < n →
          categorize_severity f i n = "Minor Injury")
      ∧ (¬0 < f → ¬0 < i → ¬0 < n →
          categorize_severity f i n = "No Injury")
      ∧ (0 < f → 0 < i → categorize_severity f i n = "Fatal") := by
  refine ⟨?_, ?_, ?_, ?_, ?_, ?_⟩
  · unfold categorize_severity
    split
    · simp
    split
    · simp
    split
    · simp
    simp
  · intro h1
    unfold categorize_severity
    rw [if_pos h1]
  · intro h1 h2
    unfold categorize_severity
    rw [if_neg h1, if_pos h2]
  · intro h1 h2 h3
    unfold categorize_severity
    rw [if_neg h1, if_neg h2, if_pos h3]
  · intro h1 h2 h3
    unfold categorize_severity
    rw [if_neg h1, if_neg h2, if_neg h3]
  · intro h1 _
    unfold categorize_severity
    rw [if_pos h1]

/-- Claim C1 witness: a record with one fatal and one incapacitating injury is
labelled Fatal, and the label of an all-zero record is among the four. -/
theorem c1_severity_label_witness :
    categorize_severity 1 1 0 = "Fatal"
      ∧ categorize_severity 0 0 0
          ∈ ["Fatal", "Serious Injury", "Minor Injury", "No Injury"] :=
  ⟨(c1_severity_label 1 1 0).2.1 (by norm_num),
   (c1_severity_label 0 0 0).1⟩

/-- Claim C6: the feature matrix of the severity classifier is exactly the encoded
nominal columns minus the injury-derived and most-severe-injury columns,
plus the raw hour, day-of-week, month and vehicle-count columns; no
injury-derived column and not the encoded most-severe-injury column is
among the features. -/
theorem c6_feature_columns :
    train_feature_cols
        = ["traffic_control_device_encoded", "weather_condition_encoded",
           "lighting_condition_encoded", "first_crash_type_encoded",
           "trafficway_type_encoded", "alignment_encoded",
           "roadway_surface_cond_encoded", "road_defect_encoded",
           "prim_contributory_cause_encoded",
           "crash_hour", "crash_day_of_week", "crash_month", "num_units"]
      ∧ train_feature_cols.contains "most_severe_injury_encoded" = false
      ∧ (train_feature_cols.all fun c => !(substrB "injuries" c)) = true
      ∧ (train_feature_cols.all
          fun c => !(substrB "most_severe_injury" c)) = true := by
  refine ⟨by decide, by decide, by decide, by decide⟩

/-- Claim C5 counterexample: on a table whose single record has a missing
injuries_total cell, total_accidents is 1 while injury_accidents and
property_damage_only are both 0, so the claimed identity fails.  (Such a
table loads: the severity categorizer reads only the fatal, incapacitating
and non-incapacitating counters, so a missing injuries_total survives to
get_basic_stats.) -/
theorem c5_counterexample :
    total_accidents [(none : Option ℚ)]
      ≠ injury_accidents [(none : Option ℚ)]
          + property_damage_only [(none : Option ℚ)] := by
  decide

/-- Claim C5 amended: for any table whose injuries_total cells are all present and
non-negative, total_accidents equals injury_accidents plus
property_damage_only exactly. -/
theorem c5_total_split (col : List (Option ℚ))
    (h : ∀ c ∈ col, ∃ v, c = some v ∧ 0 ≤ v) :
    total_accidents col = injury_accidents col + property_damage_only col := by
  unfold total_accidents injury_accidents property_damage_only
  rw [List.length_eq_countP_add_countP
    (fun c => match c with | some v => decide ((v : ℚ) > 0) | none => false)]
  congr 1
  apply List.countP_congr
  intro x hx
  obtain ⟨v, rfl, hv⟩ := h x hx
  show (decide ¬(decide ((v : ℚ) > 0)) = true) = true
      ↔ (decide ((v : ℚ) = 0)) = true
  rw [decide_eq_true_eq, decide_eq_true_eq, decide_eq_true_eq]
  constructor
  · intro hng
    exact le_antisymm (not_lt.mp hng) hv
  · intro he
    rw [he]
    exact lt_irrefl 0

/-- Claim C5 witness: the amended identity holds on a concrete two-row table. -/
theorem c5_total_split_witness :
    total_accidents [some (0 : ℚ), some 3]
      = injury_accidents [some (0 : ℚ), some 3]
          + property_damage_only [some (0 : ℚ), some 3] :=
  c5_total_split [some 0, some 3] (by
    intro c hc
    rcases List.mem_cons.mp hc with rfl | hc2
    · exact ⟨0, rfl, le_refl 0⟩
    · have : c = some 3 := by simpa using hc2
      exact ⟨3, this, by norm_num⟩)

/-- Claim C4 counterexample: in an environment where no candidate path exists, the
loader does raise (the constructor returns the FileNotFoundError), yet the
module-level handler swallows it, binds the analyzer to None, and the main
block still starts the server — contradicting the claim that the process
does not come up serving requests with no loaded table. -/
theorem c4_counterexample :
    ¬((analyzer_init (fun _ => false) "backend/traffic_accidents.csv" none
          = Except.error
              "Dataset file not found. Please ensure traffic_accidents.csv is available.")
        → server_starts (module_level_analyzer (fun _ => false)
            "backend/traffic_accidents.csv" none) = false) := by
  intro h
  have := h rfl
  simp [server_starts] at this

/-- Claim C4 amended: when no candidate path exists, the constructor raises the
FileNotFoundError of line 58, the module-level try/except turns the analyzer
into None, and the server nevertheless starts. -/
theorem c4_startup_behaviour (fileExists : String → Bool)
    (scriptDirCsv : String) (envDatasetPath : Option String)
    (h : ∀ p, fileExists p = false) :
    analyzer_init fileExists scriptDirCsv envDatasetPath
        = Except.error
            "Dataset file not found. Please ensure traffic_accidents.csv is available."
      ∧ module_level_analyzer fileExists scriptDirCsv envDatasetPath = none
      ∧ server_starts
          (module_level_analyzer fileExists scriptDirCsv envDatasetPath)
          = true := by
  have hfind : find_dataset fileExists
      (backend_candidate_paths scriptDirCsv envDatasetPath) = none := by
    unfold find_dataset
    rw [List.find?_eq_none]
    intro x _
    simp [h x]
  have hinit : analyzer_init fileExists scriptDirCsv envDatasetPath
      = Except.error
          "Dataset file not found. Please ensure traffic_accidents.csv is available." := by
    unfold analyzer_init
    rw [hfind]
  refine ⟨hinit, ?_, rfl⟩
  unfold module_level_analyzer
  rw [hinit]

/-- Claim C4 witness: the amended behaviour at the concrete empty filesystem. -/
theorem c4_startup_behaviour_witness :
    analyzer_init (fun _ => false) "dir/traffic_accidents.csv" none
        = Except.error
            "Dataset file not found. Please ensure traffic_accidents.csv is available."
      ∧ module_level_analyzer (fun _ => false) "dir/traffic_accidents.csv" none
          = none
      ∧ server_starts (module_level_analyzer (fun _ => false)
          "dir/traffic_accidents.csv" none) = true :=
  c4_startup_behaviour (fun _ => false) "dir/traffic_accidents.csv" none
    (fun _ => rfl)

/-- Claim C2: with every randomized call site of the engine passing the literal
seed 42 (subsample and KMeans in perform_clustering, split and both model
constructors in train_severity_model) and the rule miner making no
randomized call at all, each operation is independent of the ambient
entropy: two runs over the same table and the same parameters return
identical outputs, whatever the two runs ambient randomness would have
been. -/
theorem c2_fixed_seed_determinism {Row Split Model Acc Out : Type}
    (sampleData : Nat → Nat → List Row → List Row)
    (kmeansFitPredict : Nat → Nat → Nat → Nat → List Row → Out)
    (trainTestSplit : Nat → ℚ → List Row → Split)
    (rfFit : Nat → Nat → Nat → Split → Model)
    (dtFit : Nat → Nat → Split → Model)
    (accuracyOf : Model → Split → Acc)
    (ambient1 ambient2 : Nat) (n_clusters : Nat) (rows : List Row)
    (mined : Except String (Nat × List ARule)) :
    perform_clustering_run sampleData kmeansFitPredict ambient1
          n_clusters rows
        = perform_clustering_run sampleData kmeansFitPredict ambient2
            n_clusters rows
      ∧ train_severity_model_run trainTestSplit rfFit dtFit accuracyOf
            ambient1 rows
          = train_severity_model_run trainTestSplit rfFit dtFit accuracyOf
              ambient2 rows
      ∧ generate_association_rules mined = generate_association_rules mined :=
  ⟨rfl, rfl, rfl⟩

/-- Claim C3: every rule in the list returned by the association-rule operation
has lift strictly above 1.1 and a consequent free of the environmental field
names, the list is sorted by descending lift, and it holds at most 15
rules — for any mining outcome, hence for every input table and min-support
value. -/
theorem c3_returned_rule_properties (mined : Except String (Nat × List ARule)) :
    (∀ r ∈ (generate_association_rules mined).rules,
        mkRat 11 10 < r.lift ∧ env_free r = true)
      ∧ List.Sorted liftGe (generate_association_rules mined).rules
      ∧ (generate_association_rules mined).rules.length ≤ 15 := by
  have hmain : ∀ rules : List ARule,
      (∀ r ∈ filtered_rules_list rules, mkRat 11 10 < r.lift ∧ env_free r = true)
        ∧ List.Sorted liftGe (filtered_rules_list rules)
        ∧ (filtered_rules_list rules).length ≤ 15 := by
    intro rules
    refine ⟨?_, sorted_filtered_rules_list rules,
      length_filtered_rules_list rules⟩
    intro r hr
    have hf := mem_filtered_rules_list rules r hr
    unfold rule_filter at hf
    simp only [Bool.and_eq_true, Bool.not_eq_true', decide_eq_true_eq] at hf
    exact ⟨hf.2, env_free_of_not_predicts r hf.1.2⟩
  cases mined with
  | error e =>
    exact ⟨fun r hr => absurd hr (List.not_mem_nil r), List.sorted_nil,
      by show ([] : List ARule).length ≤ 15 ; norm_num⟩
  | ok p =>
    obtain ⟨nItemsets, rules⟩ := p
    by_cases h1 : 0 < nItemsets
    · by_cases h2 : 0 < rules.length
      · have hg : generate_association_rules (Except.ok (nItemsets, rules))
            = ⟨filtered_rules_list rules, none⟩ := by
          show (if 0 < nItemsets then
              if 0 < rules.length then
                (⟨filtered_rules_list rules, none⟩ : ARResult)
              else ⟨[], some no_rules_note⟩
            else ⟨[], some no_rules_note⟩) = ⟨filtered_rules_list rules, none⟩
          rw [if_pos h1, if_pos h2]
        rw [hg]
        exact hmain rules
      · have hg : generate_association_rules (Except.ok (nItemsets, rules))
            = ⟨[], some no_rules_note⟩ := by
          show (if 0 < nItemsets then
              if 0 < rules.length then
                (⟨filtered_rules_list rules, none⟩ : ARResult)
              else ⟨[], some no_rules_note⟩
            else ⟨[], some no_rules_note⟩) = ⟨[], some no_rules_note⟩
          rw [if_pos h1, if_neg h2]
        rw [hg]
        exact ⟨fun r hr => absurd hr (List.not_mem_nil r), List.sorted_nil,
          by show ([] : List ARule).length ≤ 15 ; norm_num⟩
    · have hg : generate_association_rules (Except.ok (nItemsets, rules))
          = ⟨[], some no_rules_note⟩ := by
        show (if 0 < nItemsets then
            if 0 < rules.length then
              (⟨filtered_rules_list rules, none⟩ : ARResult)
            else ⟨[], some no_rules_note⟩
          else ⟨[], some no_rules_note⟩) = ⟨[], some no_rules_note⟩
        rw [if_neg h1]
      rw [hg]
      exact ⟨fun r hr => absurd hr (List.not_mem_nil r), List.sorted_nil,
        by show ([] : List ARule).length ≤ 15 ; norm_num⟩

/-- Claim C3 witness: a concrete mining outcome with one surviving rule; the rule
has lift above 1.1 and an environment-free consequent, and the reply is
within the length bound. -/
theorem c3_returned_rule_properties_witness :
    mkRat 11 10 < c3_good_rule.lift ∧ env_free c3_good_rule = true
      ∧ (generate_association_rules
          (Except.ok (1, [c3_good_rule]))).rules.length ≤ 15 := by
  have h := c3_returned_rule_properties (Except.ok (1, [c3_good_rule]))
  have hm : c3_good_rule
      ∈ (generate_association_rules (Except.ok (1, [c3_good_rule]))).rules := by
    decide
  exact ⟨(h.1 c3_good_rule hm).1, (h.1 c3_good_rule hm).2, h.2.2⟩

/-- Claim C7: for a requested cluster count of at least 2, a non-empty working set
and a KMeans label vector taking values below the cluster count, the
operation produces exactly that many cluster summaries, their sizes sum to
the working-set row count, and their rounded percentages sum to 100 up to
rounding (within one twentieth per cluster). -/
theorem c7_cluster_summaries (labels : List Nat) (n : Nat)
    (_hn : 2 ≤ n) (hne : labels ≠ []) (hlt : ∀ l ∈ labels, l < n) :
    (cluster_sizes labels n).length = n
      ∧ (cluster_sizes labels n).sum = labels.length
      ∧ |(cluster_percentages labels n).sum - 100| ≤ (n : ℚ) / 20 := by
  refine ⟨by simp [cluster_sizes], sum_range_count labels n hlt, ?_⟩
  have hlen0 : labels.length ≠ 0 := fun h0 => hne (List.length_eq_zero.mp h0)
  have hT : ((labels.length : ℚ)) ≠ 0 := Nat.cast_ne_zero.mpr hlen0
  have hsum : (cluster_sizes labels n).sum = labels.length :=
    sum_range_count labels n hlt
  have hexact : (List.map
      (fun s : ℕ => (s : ℚ) / (labels.length : ℚ) * 100)
      (cluster_sizes labels n)).sum = 100 := by
    rw [sum_map_div_mul, hsum]
    field_simp
  have hdiff : (cluster_percentages labels n).sum - 100
      = ((cluster_sizes labels n).map
          (fun s : ℕ => round1 ((s : ℚ) / (labels.length : ℚ) * 100)
            - (s : ℚ) / (labels.length : ℚ) * 100)).sum := by
    rw [sum_map_sub_rat (cluster_sizes labels n)
      (fun s : ℕ => round1 ((s : ℚ) / (labels.length : ℚ) * 100))
      (fun s : ℕ => (s : ℚ) / (labels.length : ℚ) * 100)]
    rw [hexact]
    rfl
  rw [hdiff]
  refine le_trans (abs_list_sum_le _) ?_
  rw [List.map_map]
  have hb : ∀ x ∈ (cluster_sizes labels n).map
      ((fun x : ℚ => |x|) ∘ (fun s : ℕ =>
        round1 ((s : ℚ) / (labels.length : ℚ) * 100)
          - (s : ℚ) / (labels.length : ℚ) * 100)),
      x ≤ (1 : ℚ) / 20 := by
    intro x hx
    rcases List.mem_map.mp hx with ⟨s, _, rfl⟩
    exact round1_close _
  refine le_trans (List.sum_le_card_nsmul _ _ hb) ?_
  rw [List.length_map]
  have hlen : (cluster_sizes labels n).length = n := by simp [cluster_sizes]
  rw [hlen, nsmul_eq_mul]
  ring_nf
  rfl

/-- Claim C7 witness: two clusters over a three-row working set with labels 0, 1,
1 give two summaries, sizes summing to 3 and rounded percentages summing to
100 within the bound. -/
theorem c7_cluster_summaries_witness :
    (cluster_sizes [0, 1, 1] 2).length = 2
      ∧ (cluster_sizes [0, 1, 1] 2).sum = ([0, 1, 1] : List Nat).length
      ∧ |(cluster_percentages [0, 1, 1] 2).sum - 100| ≤ ((2 : Nat) : ℚ) / 20 :=
  c7_cluster_summaries [0, 1, 1] 2 (by norm_num) (by decide) (by decide)

/-- Claim C8 counterexample: mining returns one frequent itemset and one raw rule,
but the rule fails the lift filter, so no rule survives; the reply is an
empty rule list WITHOUT the explanatory note, refuting the claim that the
marker accompanies the empty outcome in the no-surviving-rules case. -/
theorem c8_counterexample :
    (generate_association_rules (Except.ok (1, [c8_filtered_rule]))).rules = []
      ∧ (generate_association_rules
          (Except.ok (1, [c8_filtered_rule]))).error = none :=
  ⟨by decide, by decide⟩

/-- Claim C8 amended: the operation never fails; when mining yields no frequent
itemsets or no raw rules (or throws), the empty rule list carries the
explanatory note, and when raw rules exist but none survives the relevance
filters the empty rule list is returned without the note. -/
theorem c8_empty_result_behaviour (nItemsets : Nat) (rules : List ARule)
    (e : String) :
    ((nItemsets = 0 ∨ rules = []) →
        generate_association_rules (Except.ok (nItemsets, rules))
          = ⟨[], some no_rules_note⟩)
      ∧ generate_association_rules (Except.error e) = ⟨[], some no_rules_note⟩
      ∧ (0 < nItemsets → rules ≠ [] → filtered_rules_list rules = [] →
          generate_association_rules (Except.ok (nItemsets, rules))
            = ⟨[], none⟩) := by
  refine ⟨?_, rfl, ?_⟩
  · rintro (h0 | h0)
    · subst h0
      rfl
    · subst h0
      show (if 0 < nItemsets then
          if 0 < ([] : List ARule).length then
            (⟨filtered_rules_list [], none⟩ : ARResult)
          else ⟨[], some no_rules_note⟩
        else ⟨[], some no_rules_note⟩) = ⟨[], some no_rules_note⟩
      by_cases h1 : 0 < nItemsets
      · rw [if_pos h1, if_neg (by norm_num)]
      · rw [if_neg h1]
  · intro h1 h2 h3
    show (if 0 < nItemsets then
        if 0 < rules.length then
          (⟨filtered_rules_list rules, none⟩ : ARResult)
        else ⟨[], some no_rules_note⟩
      else ⟨[], some no_rules_note⟩) = ⟨[], none⟩
    rw [if_pos h1, if_pos (List.length_pos.mpr h2), h3]

/-- Claim C8 witness: the amended behaviour at concrete inputs — a filtered-out
rule gives the markerless empty reply, an empty mining outcome gives the
note-carrying one. -/
theorem c8_empty_result_behaviour_witness :
    generate_association_rules (Except.ok (1, [c8_filtered_rule]))
        = ⟨[], none⟩
      ∧ generate_association_rules (Except.ok (0, ([] : List ARule)))
          = ⟨[], some no_rules_note⟩ :=
  ⟨(c8_empty_result_behaviour 1 [c8_filtered_rule] "x").2.2
      (by norm_num) (by decide) (by decide),
   (c8_empty_result_behaviour 0 [] "x").1 (Or.inl rfl)⟩

/-- Claim C9 (exhibit of the code bug): with a missing crash_hour cell present the
hourly analysis raises instead of returning buckets that sum over the
non-missing-hour records — on a two-row table with hours 3 and missing, the
mixed-type index sort raises, and on a one-row table with only a missing
hour, the int conversion of the filled-in "Unknown" raises, because pd.isna
never recognises the post-fillna "Unknown" as missing. -/
theorem c9_missing_hour_failure :
    get_time_analysis_hourly [some 3, none]
        = Except.error "TypeError: unorderable index of mixed str and numeric keys"
      ∧ get_time_analysis_hourly [none]
          = Except.error
              "ValueError: invalid literal for int() with base 10: Unknown" :=
  ⟨rfl, rfl⟩

/-- Claim C10: the three injury bands are pairwise disjoint predicates, and over a
cluster whose injury counts are non-negative numbers the three band counts
sum exactly to the cluster size. -/
theorem c10_injury_bands (vals : List ℚ) (h : ∀ v ∈ vals, 0 ≤ v) :
    (∀ v : ℚ, ¬(band_no_injury v ∧ band_minor v)
        ∧ ¬(band_no_injury v ∧ band_serious v)
        ∧ ¬(band_minor v ∧ band_serious v))
      ∧ (injury_distribution vals).1 + (injury_distribution vals).2.1
          + (injury_distribution vals).2.2 = vals.length := by
  constructor
  · intro v
    unfold band_no_injury band_minor band_serious
    refine ⟨?_, ?_, ?_⟩
    · rintro ⟨h1, h2, _⟩
      rw [h1] at h2
      exact lt_irrefl 0 h2
    · rintro ⟨h1, h2⟩
      rw [h1] at h2
      norm_num at h2
    · rintro ⟨⟨_, h2⟩, h3⟩
      linarith
  · exact injury_bands_sum vals h

/-- Claim C10 witness: on the concrete cluster values 0, 1, 5 the counts are one
per band, summing to the cluster size 3, and the value 1 lies in no two
bands at once. -/
theorem c10_injury_bands_witness :
    ((injury_distribution [0, 1, 5]).1 + (injury_distribution [0, 1, 5]).2.1
        + (injury_distribution [0, 1, 5]).2.2 = ([0, 1, 5] : List ℚ).length)
      ∧ ¬(band_no_injury 1 ∧ band_minor 1) := by
  have h := c10_injury_bands [0, 1, 5] (by decide)
  exact ⟨h.2, (h.1 1).1⟩

end CrashInsight

